import Mathlib

/-!
Shallow embedding of the post controller of the Property-State repository
(`src/api/controllers/post.controller.js`) together with the parts of the
Prisma data model (`src/api/prisma/schema.prisma`) that the controller's
behaviour depends on.

Modelling conventions:
* JavaScript numbers are modelled at integer precision (`Int`).  The code
  uses `parseInt` and `parseFloat` on request fields; both are modelled by
  `jsParseInt` (leading-digits parsing, `none` for `NaN`).  No claim in
  scope depends on fractional values.
* `undefined` / absent JSON fields are modelled with `Option`; JavaScript
  truthiness of strings and numbers is modelled explicitly (`""` and `0`
  are falsy).
* Database timestamps are modelled as `Nat` tick values; `new Date()` in
  the controller becomes an explicit `now : Nat` parameter.
* Storage-layer faults (unreachable backend, driver errors) are modelled
  by explicit fault flags on the database state; a `parseInt` result of
  `NaN` flowing into a typed storage field is modelled as a faulting
  storage call.
-/

namespace PropertyState

/-- A JSON scalar that may arrive either as a string or as a number in a
request body (the controller checks `typeof x === 'string'`). -/
inductive JNum where
  | str (s : String)
  | int (n : Int)
deriving DecidableEq, Repr

/-- JavaScript truthiness of a `JNum`: the empty string and the number `0`
are falsy. -/
def JNum.truthy : JNum → Bool
  | .str s => !(s == "")
  | .int n => !(n == 0)

/-- JavaScript truthiness of a possibly-absent string (`undefined` and
`""` are falsy). -/
def truthyS : Option String → Bool
  | none => false
  | some s => !(s == "")

/-- JavaScript truthiness of a possibly-absent string-or-number value. -/
def truthyN : Option JNum → Bool
  | none => false
  | some v => v.truthy

/-- Decimal value of a list of digit characters. -/
def digitsToNat (ds : List Char) : Nat :=
  ds.foldl (fun a c => a * 10 + (c.toNat - '0'.toNat)) 0

/-- JavaScript `parseInt(s, 10)`: skip leading whitespace, accept an
optional sign, read the maximal run of leading decimal digits; `NaN`
(here `none`) when that run is empty. -/
def jsParseInt (s : String) : Option Int :=
  let cs := s.toList.dropWhile Char.isWhitespace
  let signAndRest : Int × List Char :=
    match cs with
    | '-' :: r => (-1, r)
    | '+' :: r => (1, r)
    | r => (1, r)
  let ds := signAndRest.2.takeWhile Char.isDigit
  if ds.isEmpty then none
  else some (signAndRest.1 * (digitsToNat ds : Int))

/-- JavaScript `parseInt` applied to a string-or-number value: a number is
returned as-is (integer precision), a string is parsed. -/
def jnumParseInt : JNum → Option Int
  | .str s => jsParseInt s
  | .int n => some n

/-- The controller's numeric coercion in `addPost`
(`typeof x === 'string' ? parseFloat(x) : x`), at integer precision. -/
def jnumCoerce : JNum → Option Int
  | .str s => jsParseInt s
  | .int n => some n

/-- Whether `needle` occurs as a contiguous sublist of `hay`. -/
def listContainsSub (hay needle : List Char) : Bool :=
  (List.range (hay.length + 1)).any fun i => needle.isPrefixOf (hay.drop i)

/-- Case-insensitive substring test, the model of the storage layer's
`contains` filter with `mode: 'insensitive'`. -/
def containsCI (hay needle : String) : Bool :=
  listContainsSub (hay.toList.map Char.toLower) (needle.toList.map Char.toLower)

/-! ## The persisted data model (`schema.prisma`) -/

/-- `model User` (the Account entity): the fields the controller touches. -/
structure User where
  id : String
  username : String
  email : String
  avatar : Option String
  createdAt : Nat
deriving DecidableEq, Repr

/-- `model Post` (the Listing entity).  Note that `latitude` and
`longitude` are `String?` in the schema. -/
structure Post where
  id : String
  title : String
  price : Int
  images : List String
  address : String
  city : String
  bedroom : Option Int
  bathroom : Option Int
  latitude : Option String
  longitude : Option String
  type : String
  property : String
  createdAt : Nat
  updatedAt : Nat
  userId : String
deriving DecidableEq, Repr

/-- `model PostDetail` (the Listing Detail entity), keyed 1:1 by `postId`
and cascade-deleted with its `Post`. -/
structure PostDetail where
  id : String
  desc : Option String
  utilities : Option String
  pet : Option String
  income : Option String
  size : Option Int
  school : Option Int
  bus : Option Int
  restaurant : Option Int
  postId : String
deriving DecidableEq, Repr

/-- `model Conversation`: `propertyId` is an optional reference to a
`Post` with no cascade and no `onDelete` action. -/
structure Conversation where
  id : String
  user1Id : String
  user2Id : String
  propertyId : Option String
  user1Unread : Int
  user2Unread : Int
  lastMessage : Option String
deriving DecidableEq, Repr

/-- The document store's collections, plus fault flags for the storage
layer.  `faultFull` makes the first (joined) `findMany` / first `create`
call throw; `faultFallback` makes the second (fallback / retry) call
throw. -/
structure DBState where
  users : List User
  posts : List Post
  details : List PostDetail
  conversations : List Conversation
  faultFull : Bool
  faultFallback : Bool
deriving DecidableEq, Repr

/-! ## Listing Filter Builder (`getPosts`, lines 10-37) -/

/-- The `where` clause built from the query string.  For numeric keys the
inner `Option Int` is the `parseInt` result: `some none` records that the
filter was requested but the value parsed to `NaN` (which makes the typed
storage call throw). -/
structure WhereClause where
  city : Option String
  type : Option String
  property : Option String
  bedroomGte : Option (Option Int)
  priceGte : Option (Option Int)
  priceLte : Option (Option Int)
deriving DecidableEq, Repr

/-- First value bound to `k` in the query mapping, as Express exposes it. -/
def qget (q : List (String × String)) (k : String) : Option String :=
  (q.find? fun p => p.1 == k).map Prod.snd

/-- A query value that passed the controller's truthiness guard
(`if (query.k) ...`). -/
def tval (o : Option String) : Option String :=
  match o with
  | none => none
  | some s => if s == "" then none else some s

/-- The filter builder at the top of `getPosts`: recognized keys are
`city` (insensitive contains), `type` and `property` (equality),
`bedroom` (`gte parseInt`), `minPrice` / `maxPrice` (`gte` / `lte`
`parseInt`); everything else is ignored. -/
def buildWhere (q : List (String × String)) : WhereClause :=
  { city := tval (qget q "city")
    type := tval (qget q "type")
    property := tval (qget q "property")
    bedroomGte := (tval (qget q "bedroom")).map jsParseInt
    priceGte := (tval (qget q "minPrice")).map jsParseInt
    priceLte := (tval (qget q "maxPrice")).map jsParseInt }

/-- The clause contains no `NaN` bound, i.e. the storage call it is passed
to does not throw a type error. -/
def whereValid (w : WhereClause) : Bool :=
  w.bedroomGte != some none && w.priceGte != some none && w.priceLte != some none

/-- The predicate a valid `where` clause denotes on a stored `Post`
(a `gte`/`lte` comparison against a missing (`null`) field matches no
document). -/
def postMatches (w : WhereClause) (p : Post) : Bool :=
  (match w.city with
   | none => true
   | some c => containsCI p.city c) &&
  (match w.type with
   | none => true
   | some t => p.type == t) &&
  (match w.property with
   | none => true
   | some t => p.property == t) &&
  (match w.bedroomGte with
   | none => true
   | some none => false
   | some (some n) =>
     match p.bedroom with
     | none => false
     | some b => n ≤ b) &&
  (match w.priceGte with
   | none => true
   | some none => false
   | some (some n) => n ≤ p.price) &&
  (match w.priceLte with
   | none => true
   | some none => false
   | some (some n) => p.price ≤ n)

/-- `orderBy: { createdAt: 'desc' }`: insertion of a post into a list that
is sorted newest-first. -/
def insertDesc (p : Post) : List Post → List Post
  | [] => [p]
  | q :: qs => if q.createdAt ≤ p.createdAt then p :: q :: qs else q :: insertDesc p qs

/-- Sort a collection of posts newest-first. -/
def sortDesc : List Post → List Post
  | [] => []
  | p :: ps => insertDesc p (sortDesc ps)

theorem mem_insertDesc (x p : Post) (l : List Post) :
    x ∈ insertDesc p l ↔ x = p ∨ x ∈ l := by
  induction l with
  | nil => simp [insertDesc]
  | cons q qs ih =>
    simp only [insertDesc]
    by_cases h : q.createdAt ≤ p.createdAt
    · simp [h]
    · simp [h, ih]; tauto

theorem mem_sortDesc (x : Post) (l : List Post) : x ∈ sortDesc l ↔ x ∈ l := by
  induction l with
  | nil => simp [sortDesc]
  | cons p ps ih => simp [sortDesc, mem_insertDesc, ih]

/-! ## Response Shaping Layer (`getPosts` lines 76-152, and the per-post
transforms in the other handlers) -/

/-- The derived "owner info" projection.  `memberSince` is a timestamp
(`user.createdAt` when joined, the current time for the sentinel);
`avatar` keeps the joined account's possibly-null avatar, while the
sentinel uses the empty string. -/
structure OwnerInfo where
  id : String
  username : String
  email : String
  fullName : String
  avatar : Option String
  verified : Bool
  showContactInfo : Bool
  memberSince : Nat
  location : String
  userType : String
deriving DecidableEq, Repr

/-- A listing as returned to the caller: the record fields together with
the always-present `ownerInfo` projection. -/
structure ShapedPost where
  post : Post
  ownerInfo : OwnerInfo
deriving DecidableEq, Repr

/-- `${post.city || 'Unknown City'}`. -/
def locationOf (city : String) : String :=
  if city == "" then "Unknown City" else city

/-- The joined-account branch of the transform (`getPosts` lines 83-93,
and the identical transforms in `addPost`, `getPost`, `updatePost`). -/
def ownerInfoOf (u : User) (city : String) : OwnerInfo :=
  { id := u.id
    username := u.username
    email := u.email
    fullName := u.username
    avatar := u.avatar
    verified := false
    showContactInfo := true
    memberSince := u.createdAt
    location := locationOf city
    userType := "standard" }

/-- The sentinel "unknown user" projection substituted on the full list
path when no owning account joined (`getPosts` lines 94-105). -/
def unknownOwner (city : String) (now : Nat) : OwnerInfo :=
  { id := "unknown"
    username := "Unknown User"
    email := ""
    fullName := "Unknown"
    avatar := some ""
    verified := false
    showContactInfo := false
    memberSince := now
    location := locationOf city
    userType := "standard" }

/-- The sentinel used on the fallback list path (`getPosts` lines
140-151); its `location` falls back to `'Unknown'` rather than
`'Unknown City'`. -/
def unknownOwnerBasic (city : String) (now : Nat) : OwnerInfo :=
  { id := "unknown"
    username := "Unknown User"
    email := ""
    fullName := "Unknown"
    avatar := some ""
    verified := false
    showContactInfo := false
    memberSince := now
    location := if city == "" then "Unknown" else city
    userType := "standard" }

/-- Join the owning account of a post (`user: { select: ... }`). -/
def joinUser (st : DBState) (p : Post) : Option User :=
  st.users.find? fun u => u.id == p.userId

/-- The full list path's per-post transform: the select omits
`latitude`/`longitude` and the mapper re-adds them as `null`, and
`ownerInfo` is the joined projection or the sentinel. -/
def shapeFull (st : DBState) (now : Nat) (p : Post) : ShapedPost :=
  { post := { p with latitude := none, longitude := none }
    ownerInfo :=
      match joinUser st p with
      | some u => ownerInfoOf u p.city
      | none => unknownOwner p.city now }

/-- The fallback list path's per-post transform: no join is attempted, the
sentinel is always used, and coordinates are again `null`. -/
def shapeBasic (now : Nat) (p : Post) : ShapedPost :=
  { post := { p with latitude := none, longitude := none }
    ownerInfo := unknownOwnerBasic p.city now }

/-! ## Listing Repository Adapter: list (`getPosts`, lines 3-162) -/

/-- `GET /posts`.  The full query applies the built filter and the owner
join; it throws when the backend faults or when the built clause carries a
`NaN` bound.  The inner catch retries with a basic query that has NO
`where` clause and no join; the outer catch turns any remaining fault into
`200 []`. -/
def getPosts (st : DBState) (now : Nat) (q : List (String × String)) :
    Nat × List ShapedPost :=
  if st.faultFull || !whereValid (buildWhere q) then
    -- inner catch: basic query without relationships and without `where`
    if st.faultFallback then (200, [])
    else (200, (sortDesc st.posts).map (shapeBasic now))
  else
    (200, (sortDesc (st.posts.filter (postMatches (buildWhere q)))).map
      (shapeFull st now))

/-! ## Listing Repository Adapter: read-one (`getPost`, lines 336-381) -/

/-- `GET /posts/:id`: 404 when absent; otherwise the transform reads
`post.user.id` with no null guard, so a dangling owner reference throws
and the catch yields 500; on success the shaped listing keeps the stored
coordinates. -/
def getPost (st : DBState) (id : String) : Nat × Option ShapedPost :=
  match st.posts.find? fun p => p.id == id with
  | none => (404, none)
  | some p =>
    match joinUser st p with
    | none => (500, none)
    | some u => (200, some { post := p, ownerInfo := ownerInfoOf u p.city })

/-! ## Request bodies -/

/-- The `postDetail` object of a create/update body. -/
structure DetailBody where
  desc : Option String
  utilities : Option String
  pet : Option String
  income : Option String
  size : Option JNum
  school : Option JNum
  bus : Option JNum
  restaurant : Option JNum
deriving DecidableEq, Repr

/-- The body of `POST /posts`. -/
structure AddBody where
  title : Option String
  price : Option JNum
  images : Option (List String)
  address : Option String
  city : Option String
  bedroom : Option JNum
  bathroom : Option JNum
  latitude : Option JNum
  longitude : Option JNum
  type : Option String
  property : Option String
  postDetail : Option DetailBody
deriving DecidableEq, Repr

/-- The body of `PUT /posts/:id`.  `latitude`/`longitude` are written to
the store verbatim, so here they stay strings. -/
structure UpdateBody where
  title : Option String
  price : Option JNum
  images : Option (List String)
  address : Option String
  city : Option String
  bedroom : Option JNum
  bathroom : Option JNum
  latitude : Option String
  longitude : Option String
  type : Option String
  property : Option String
  postDetail : Option DetailBody
deriving DecidableEq, Repr

/-- JavaScript `x || dflt` on a possibly-absent string. -/
def jsOrS (o : Option String) (dflt : String) : String :=
  match o with
  | none => dflt
  | some s => if s == "" then dflt else s

/-- Prisma update semantics for a plain optional-in-body string field
(`field: body.field`): `undefined` leaves the stored value, a present
value overwrites it. -/
def updOptS (v old : Option String) : Option String :=
  match v with
  | none => old
  | some s => some s

/-- The detail numeric pattern `x ? parseInt(x) : null`, used in BOTH the
update and the create branch of the upsert: a falsy value stores `null`,
a truthy one stores the parsed integer; the outer `none` is a `NaN`
flowing into an `Int` field, which makes the storage call throw. -/
def detCreateNum : Option JNum → Option (Option Int)
  | none => some none
  | some jn => if jn.truthy then (jnumParseInt jn).map some else some none

/-! ## Listing Repository Adapter: create (`addPost`, lines 164-334) -/

/-- `typeof body.price === 'string' ? parseFloat(body.price) : body.price`
(integer precision). -/
def numericPrice (body : AddBody) : Option Int :=
  match body.price with
  | none => none
  | some jn => jnumCoerce jn

/-- `body.bedroom ? (string ? parseInt : value) : 0`. -/
def numericBedroom (body : AddBody) : Option Int :=
  match body.bedroom with
  | none => some 0
  | some jn => if jn.truthy then jnumParseInt jn else some 0

/-- `body.bathroom ? (string ? parseFloat : value) : 0.0` (integer
precision). -/
def numericBathroom (body : AddBody) : Option Int :=
  match body.bathroom with
  | none => some 0
  | some jn => if jn.truthy then jnumCoerce jn else some 0

/-- The nested `postDetail: { create: ... }` record of `addPost`
(lines 219-230), as it reaches the store when no `NaN` intervenes
(`createThrows` below captures the `NaN` case). -/
def detailRecord (d : DetailBody) (did pid : String) : PostDetail :=
  { id := did
    desc := some (jsOrS d.desc "")
    utilities := some (jsOrS d.utilities "")
    pet := some (jsOrS d.pet "")
    income := some (jsOrS d.income "")
    size := (detCreateNum d.size).getD none
    school := (detCreateNum d.school).getD none
    bus := (detCreateNum d.bus).getD none
    restaurant := (detCreateNum d.restaurant).getD none
    postId := pid }

/-- The `data` object of `prisma.post.create` (lines 204-231): both the
first attempt and the retry build exactly this record — the
`latitude`/`longitude` lines are commented out in the source, so the
stored record never carries coordinates.  (The `getD` defaults are only
reachable when `createThrows` holds, in which case the record never
reaches the store.) -/
def createRecord (body : AddBody) (tok pid did : String) (now : Nat) :
    Post × Option PostDetail :=
  ({ id := pid
     title := body.title.getD ""
     price := (numericPrice body).getD 0
     images := body.images.getD []
     address := body.address.getD ""
     city := body.city.getD ""
     bedroom := some ((numericBedroom body).getD 0)
     bathroom := some ((numericBathroom body).getD 0)
     latitude := none
     longitude := none
     type := jsOrS body.type "rent"
     property := jsOrS body.property "apartment"
     createdAt := now
     updatedAt := now
     userId := tok },
   body.postDetail.map fun d => detailRecord d did pid)

/-- Whether the create call throws on its `data` object: a `NaN` produced
by one of the numeric coercions reaching a typed field.  This depends
only on the body, so the first attempt and the retry throw alike. -/
def createThrows (body : AddBody) : Bool :=
  (numericPrice body).isNone || (numericBedroom body).isNone ||
  (numericBathroom body).isNone ||
  (match body.postDetail with
   | none => false
   | some d =>
     (detCreateNum d.size).isNone || (detCreateNum d.school).isNone ||
     (detCreateNum d.bus).isNone || (detCreateNum d.restaurant).isNone)

/-- Append a freshly created post (and its nested detail, if any) to the
store. -/
def insertCreated (st : DBState) (p : Post) (d : Option PostDetail) : DBState :=
  { st with posts := st.posts ++ [p], details := st.details ++ d.toList }

/-- Result of `POST /posts`: HTTP status, resulting store, number of
`create` calls issued, and the shaped response body on 201. -/
structure AddResult where
  status : Nat
  st : DBState
  attempts : Nat
  resBody : Option ShapedPost
deriving DecidableEq, Repr

/-- `POST /posts`.  Missing/falsy `title`, `price` or `city` → 400 and no
storage call.  Otherwise a create is attempted; if it throws (backend
fault or `NaN` in a typed field) — or if the response transform throws on
a missing joined user — the inner catch issues exactly one retry with the
identical coordinate-free record; a fault of the retry reaches the outer
catch and yields 500. -/
def addPost (st : DBState) (tok : String) (body : AddBody)
    (pid1 did1 pid2 did2 : String) (now : Nat) : AddResult :=
  if !(truthyS body.title && truthyN body.price && truthyS body.city) then
    ⟨400, st, 0, none⟩
  else if createThrows body then
    -- `NaN` in a typed field: the create and its single retry both throw
    ⟨500, st, 2, none⟩
  else if st.faultFull then
    -- first create throws in the driver; the inner catch retries once
    if st.faultFallback then ⟨500, st, 2, none⟩
    else
      match joinUser st (createRecord body tok pid2 did2 now).1 with
      | some u =>
        ⟨201,
         insertCreated st (createRecord body tok pid2 did2 now).1
           (createRecord body tok pid2 did2 now).2,
         2,
         some ⟨(createRecord body tok pid2 did2 now).1,
               ownerInfoOf u (createRecord body tok pid2 did2 now).1.city⟩⟩
      | none =>
        ⟨500,
         insertCreated st (createRecord body tok pid2 did2 now).1
           (createRecord body tok pid2 did2 now).2,
         2, none⟩
  else
    match joinUser st (createRecord body tok pid1 did1 now).1 with
    | some u =>
      ⟨201,
       insertCreated st (createRecord body tok pid1 did1 now).1
         (createRecord body tok pid1 did1 now).2,
       1,
       some ⟨(createRecord body tok pid1 did1 now).1,
             ownerInfoOf u (createRecord body tok pid1 did1 now).1.city⟩⟩
    | none =>
      -- `newPost.user.id` throws; the inner catch retries the create,
      -- whose transform throws again, reaching the outer catch → 500
      if st.faultFallback then
        ⟨500,
         insertCreated st (createRecord body tok pid1 did1 now).1
           (createRecord body tok pid1 did1 now).2,
         2, none⟩
      else
        ⟨500,
         insertCreated
           (insertCreated st (createRecord body tok pid1 did1 now).1
             (createRecord body tok pid1 did1 now).2)
           (createRecord body tok pid2 did2 now).1
           (createRecord body tok pid2 did2 now).2,
         2, none⟩

/-! ## Listing Repository Adapter: update (`updatePost`, lines 383-487) -/

/-- `prisma.postDetail.upsert` (lines 409-432).  In the update branch the
four text fields follow plain update semantics (`undefined` → unchanged)
while the four numeric fields are always written (`x ? parseInt(x) :
null`); the create branch defaults the text fields to `''`.  `none` when
a `NaN` reaches a typed field and the upsert throws. -/
def upsertDetail (st : DBState) (pid did : String) (d : DetailBody) :
    Option DBState :=
  match detCreateNum d.size, detCreateNum d.school,
        detCreateNum d.bus, detCreateNum d.restaurant with
  | some sz, some sc, some bu, some re =>
    match st.details.find? fun x => x.postId == pid with
    | some old =>
      let upd : PostDetail :=
        { old with
          desc := updOptS d.desc old.desc
          utilities := updOptS d.utilities old.utilities
          pet := updOptS d.pet old.pet
          income := updOptS d.income old.income
          size := sz, school := sc, bus := bu, restaurant := re }
      some { st with
             details := st.details.map fun x => if x.postId == pid then upd else x }
    | none =>
      some { st with
             details := st.details ++
               [{ id := did
                  desc := some (jsOrS d.desc "")
                  utilities := some (jsOrS d.utilities "")
                  pet := some (jsOrS d.pet "")
                  income := some (jsOrS d.income "")
                  size := sz, school := sc, bus := bu, restaurant := re
                  postId := pid }] }
  | _, _, _, _ => none

/-- `field: body.field ? parseInt(body.field) : undefined` on a required
numeric column: falsy → unchanged, truthy → parsed (`NaN` → the call
throws, outer `none`). -/
def updNumField (v : Option JNum) (old : Int) : Option Int :=
  match v with
  | none => some old
  | some jn => if jn.truthy then jnumParseInt jn else some old

/-- The same pattern on a nullable numeric column. -/
def updOptNumField (v : Option JNum) (old : Option Int) : Option (Option Int) :=
  match v with
  | none => some old
  | some jn => if jn.truthy then (jnumParseInt jn).map some else some old

/-- The `data` object of `prisma.post.update` (lines 436-450): plain
fields follow update semantics, numeric fields are parsed defensively,
and `latitude`/`longitude` are written verbatim when supplied. -/
def applyPostUpdate (p : Post) (b : UpdateBody) (now : Nat) : Option Post :=
  match updNumField b.price p.price, updOptNumField b.bedroom p.bedroom,
        updOptNumField b.bathroom p.bathroom with
  | some pr, some bd, some ba =>
    some { p with
           title := b.title.getD p.title
           price := pr
           images := b.images.getD p.images
           address := b.address.getD p.address
           city := b.city.getD p.city
           bedroom := bd
           bathroom := ba
           latitude := updOptS b.latitude p.latitude
           longitude := updOptS b.longitude p.longitude
           type := b.type.getD p.type
           property := b.property.getD p.property
           updatedAt := now }
  | _, _, _ => none

/-- `PUT /posts/:id`.  Existence is checked first (404), then ownership
(403), before any write.  The detail upsert and the post update are two
independent storage calls: a fault in the post update leaves a completed
detail upsert in place. -/
def updatePost (st : DBState) (id tok : String) (b : UpdateBody)
    (did : String) (now : Nat) : Nat × DBState :=
  match st.posts.find? fun p => p.id == id with
  | none => (404, st)
  | some p =>
    if p.userId != tok then (403, st)
    else
      let step1 : Option DBState :=
        match b.postDetail with
        | none => some st
        | some d => upsertDetail st id did d
      match step1 with
      | none => (500, st)
      | some st1 =>
        match applyPostUpdate p b now with
        | none => (500, st1)
        | some p2 =>
          (200, { st1 with
                  posts := st1.posts.map fun x => if x.id == id then p2 else x })

/-! ## Listing Repository Adapter: delete (`deletePost`, lines 489-518) -/

/-- `DELETE /posts/:id`: 404 / 403 exactly as in `updatePost`; on success
the post is removed and — by the schema's `onDelete: Cascade` on
`PostDetail.post` — so is its detail record; no other collection is
touched. -/
def deletePost (st : DBState) (id tok : String) : Nat × DBState :=
  match st.posts.find? fun p => p.id == id with
  | none => (404, st)
  | some p =>
    if p.userId != tok then (403, st)
    else
      (200, { st with
              posts := st.posts.filter fun x => !(x.id == id)
              details := st.details.filter fun x => !(x.postId == id) })

/-! ## Concrete fixtures for witnesses and counterexamples -/

/-- A stored account. -/
def u1 : User :=
  { id := "u1", username := "alice", email := "a@example.com"
    avatar := none, createdAt := 3 }

/-- A listing owned by `u1`. -/
def pA : Post :=
  { id := "p1", title := "Flat A", price := 1200, images := []
    address := "", city := "Berlin", bedroom := some 2, bathroom := some 1
    latitude := none, longitude := none, type := "rent"
    property := "apartment", createdAt := 10, updatedAt := 10, userId := "u1" }

/-- A listing owned by somebody else, in a different city. -/
def pB : Post :=
  { id := "p2", title := "Flat B", price := 900, images := []
    address := "", city := "Paris", bedroom := some 1, bathroom := some 1
    latitude := none, longitude := none, type := "rent"
    property := "apartment", createdAt := 5, updatedAt := 5, userId := "u2" }

/-- The detail record of `pA`, with a stored `size`. -/
def dA : PostDetail :=
  { id := "d1", desc := some "old desc", utilities := none, pet := none
    income := none, size := some 5, school := none, bus := none
    restaurant := none, postId := "p1" }

/-- A conversation referencing listing `p1`. -/
def convA : Conversation :=
  { id := "c1", user1Id := "u1", user2Id := "u2", propertyId := some "p1"
    user1Unread := 0, user2Unread := 0, lastMessage := none }

/-- A healthy store holding the fixtures above. -/
def stA : DBState :=
  { users := [u1], posts := [pA, pB], details := [dA]
    conversations := [convA], faultFull := false, faultFallback := false }

/-- The same store with the first (joined / first-attempt) storage call
faulting and the fallback healthy. -/
def stC : DBState := { stA with faultFull := true }

/-- The same store with the whole backend unreachable. -/
def stDown : DBState := { stA with faultFull := true, faultFallback := true }

/-- A create body whose three required fields are all present but whose
price is the number `0`. -/
def body0 : AddBody :=
  { title := some "T", price := some (.int 0), images := none
    address := none, city := some "C", bedroom := none, bathroom := none
    latitude := none, longitude := none, type := none, property := none
    postDetail := none }

/-! ## Claims -/

/-- **C2.** For every update or delete request on a Listing: a missing
identifier yields 404 regardless of the authenticated subject; an
existing Listing whose owner differs from the authenticated subject
yields 403 (never 404) and the store is not mutated; hence mutation can
only proceed when the record exists and the owners match. -/
theorem C2_ownership_gating :
    ∀ (st : DBState) (id tok did : String) (b : UpdateBody) (now : Nat),
      (st.posts.find? (fun p => p.id == id) = none →
        updatePost st id tok b did now = (404, st) ∧
        deletePost st id tok = (404, st)) ∧
      (∀ p : Post, st.posts.find? (fun p => p.id == id) = some p →
        p.userId ≠ tok →
        updatePost st id tok b did now = (403, st) ∧
        deletePost st id tok = (403, st)) := by
  intro st id tok did b now
  refine ⟨fun h => ⟨?_, ?_⟩, fun p hp hne => ⟨?_, ?_⟩⟩
  · simp [updatePost, h]
  · simp [deletePost, h]
  · have hbne : (p.userId != tok) = true := bne_iff_ne.mpr hne
    simp [updatePost, hp, hbne]
  · have hbne : (p.userId != tok) = true := bne_iff_ne.mpr hne
    simp [deletePost, hp, hbne]

/-- **C2 witness:** on the concrete store, updating/deleting `p1` as the
non-owner `u9` yields 403 with no mutation, and a nonexistent id yields
404. -/
theorem C2_ownership_gating_witness :
    (updatePost stA "p1" "u9"
        ⟨none, none, none, none, none, none, none, none, none, none, none, none⟩
        "dX" 0 = (403, stA) ∧
      deletePost stA "p1" "u9" = (403, stA)) ∧
    (updatePost stA "nope" "u1"
        ⟨none, none, none, none, none, none, none, none, none, none, none, none⟩
        "dX" 0 = (404, stA) ∧
      deletePost stA "nope" "u1" = (404, stA)) :=
  ⟨(C2_ownership_gating stA "p1" "u9" "dX"
      ⟨none, none, none, none, none, none, none, none, none, none, none, none⟩ 0).2
      pA (by decide) (by decide),
   (C2_ownership_gating stA "nope" "u1" "dX"
      ⟨none, none, none, none, none, none, none, none, none, none, none, none⟩ 0).1
      (by decide)⟩

/-- **C7.** Deleting a Listing as its owner removes the Listing and its
Detail (the schema's cascade) and nothing else: all other posts and
details survive, the users and conversations collections are returned
unchanged, and a Conversation referencing the deleted Listing keeps its
(now dangling) reference. -/
theorem C7_delete_cascade :
    ∀ (st : DBState) (id tok : String) (p : Post),
      st.posts.find? (fun x => x.id == id) = some p → p.userId = tok →
      (deletePost st id tok).1 = 200 ∧
      (∀ d ∈ (deletePost st id tok).2.details, d.postId ≠ id) ∧
      (∀ d ∈ st.details, d.postId ≠ id → d ∈ (deletePost st id tok).2.details) ∧
      (deletePost st id tok).2.conversations = st.conversations ∧
      (deletePost st id tok).2.users = st.users ∧
      (∀ q ∈ st.posts, q.id ≠ id → q ∈ (deletePost st id tok).2.posts) ∧
      (∀ q ∈ (deletePost st id tok).2.posts, q.id ≠ id) ∧
      (∀ c ∈ st.conversations, c.propertyId = some id →
        c ∈ (deletePost st id tok).2.conversations ∧
        ∀ q ∈ (deletePost st id tok).2.posts, q.id ≠ id) := by
  intro st id tok p hp howner
  have hbne : (p.userId != tok) = false := by simp [howner]
  simp only [deletePost, hp, hbne, Bool.false_eq_true, if_false]
  refine ⟨trivial, ?_, ?_, trivial, trivial, ?_, ?_, ?_⟩
  · intro d hd
    simp only [List.mem_filter, Bool.not_eq_true', beq_eq_false_iff_ne] at hd
    exact hd.2
  · intro d hd hne
    simp only [List.mem_filter, Bool.not_eq_true', beq_eq_false_iff_ne]
    exact ⟨hd, hne⟩
  · intro q hq hne
    simp only [List.mem_filter, Bool.not_eq_true', beq_eq_false_iff_ne]
    exact ⟨hq, hne⟩
  · intro q hq
    simp only [List.mem_filter, Bool.not_eq_true', beq_eq_false_iff_ne] at hq
    exact hq.2
  · intro c hc _
    refine ⟨hc, fun q hq => ?_⟩
    simp only [List.mem_filter, Bool.not_eq_true', beq_eq_false_iff_ne] at hq
    exact hq.2

/-- **C7 witness:** deleting `p1` as `u1` on the concrete store returns
200, drops `dA`, keeps `pB`, and leaves `convA` (which references `p1`)
untouched. -/
theorem C7_delete_cascade_witness :
    (deletePost stA "p1" "u1").1 = 200 ∧
    convA ∈ (deletePost stA "p1" "u1").2.conversations ∧
    convA.propertyId = some "p1" ∧
    ∀ q ∈ (deletePost stA "p1" "u1").2.posts, q.id ≠ "p1" := by
  have h := C7_delete_cascade stA "p1" "u1" pA (by decide) (by decide)
  exact ⟨h.1, (h.2.2.2.2.2.2.2 convA (by decide) (by decide)).1, by decide,
    h.2.2.2.2.2.2.1⟩

theorem listContainsSub_nil (hay : List Char) : listContainsSub hay [] = true := by
  unfold listContainsSub
  rw [List.any_eq_true]
  exact ⟨0, by simp, by simp [List.isPrefixOf]⟩

theorem containsCI_empty_needle (s : String) : containsCI s "" = true := by
  unfold containsCI
  simpa using listContainsSub_nil (s.toList.map Char.toLower)

/-- **C3.** The Listing Filter Builder: an empty mapping matches every
Listing; a `city` value matches exactly the Listings whose city contains
it case-insensitively; `type` and `property` are exact equality;
`bedroom` is an at-least threshold on the parsed integer; `minPrice` /
`maxPrice` are combinable lower/upper bounds on price; an unrecognized
key leaves the built clause unchanged. -/
theorem C3_filter_builder :
    (∀ p : Post, postMatches (buildWhere []) p = true) ∧
    (∀ (c : String) (p : Post),
      postMatches (buildWhere [("city", c)]) p = containsCI p.city c) ∧
    (∀ (t : String) (p : Post), t ≠ "" →
      postMatches (buildWhere [("type", t)]) p = (p.type == t)) ∧
    (∀ (t : String) (p : Post), t ≠ "" →
      postMatches (buildWhere [("property", t)]) p = (p.property == t)) ∧
    (∀ (b : String) (n : Int) (p : Post), jsParseInt b = some n →
      postMatches (buildWhere [("bedroom", b)]) p =
        (match p.bedroom with
         | none => false
         | some k => decide (n ≤ k))) ∧
    (∀ (m M : String) (nm nM : Int) (p : Post),
      jsParseInt m = some nm → jsParseInt M = some nM →
      postMatches (buildWhere [("minPrice", m), ("maxPrice", M)]) p =
        (decide (nm ≤ p.price) && decide (p.price ≤ nM))) ∧
    (∀ (k v : String) (q : List (String × String)),
      k ∉ (["city", "type", "property", "bedroom", "minPrice",
            "maxPrice"] : List String) →
      buildWhere ((k, v) :: q) = buildWhere q) := by
  refine ⟨fun p => rfl, ?_, ?_, ?_, ?_, ?_, ?_⟩
  · -- city
    intro c p
    by_cases hc : c = ""
    · subst hc
      rw [containsCI_empty_needle]
      rfl
    · have hbc : (c == "") = false := beq_eq_false_iff_ne.mpr hc
      have hw : buildWhere [("city", c)] =
          { city := some c, type := none, property := none,
            bedroomGte := none, priceGte := none, priceLte := none } := by
        simp [buildWhere, qget, tval, hbc]
      rw [hw]
      simp [postMatches]
  · -- type
    intro t p ht
    have hbt : (t == "") = false := beq_eq_false_iff_ne.mpr ht
    have hw : buildWhere [("type", t)] =
        { city := none, type := some t, property := none,
          bedroomGte := none, priceGte := none, priceLte := none } := by
      simp [buildWhere, qget, tval, hbt]
    rw [hw]
    simp [postMatches]
  · -- property
    intro t p ht
    have hbt : (t == "") = false := beq_eq_false_iff_ne.mpr ht
    have hw : buildWhere [("property", t)] =
        { city := none, type := none, property := some t,
          bedroomGte := none, priceGte := none, priceLte := none } := by
      simp [buildWhere, qget, tval, hbt]
    rw [hw]
    simp [postMatches]
  · -- bedroom
    intro b n p hb
    have hb0 : (b == "") = false := by
      rcases eq_or_ne b "" with h | h
      · subst h
        rw [show jsParseInt "" = none from by decide] at hb
        cases hb
      · exact beq_eq_false_iff_ne.mpr h
    have hw : buildWhere [("bedroom", b)] =
        { city := none, type := none, property := none,
          bedroomGte := some (some n), priceGte := none, priceLte := none } := by
      simp [buildWhere, qget, tval, hb0, hb]
    rw [hw]
    rcases hpb : p.bedroom with _ | k <;> simp [postMatches, hpb]
  · -- minPrice / maxPrice
    intro m M nm nM p hm hM
    have hm0 : (m == "") = false := by
      rcases eq_or_ne m "" with h | h
      · subst h
        rw [show jsParseInt "" = none from by decide] at hm
        cases hm
      · exact beq_eq_false_iff_ne.mpr h
    have hM0 : (M == "") = false := by
      rcases eq_or_ne M "" with h | h
      · subst h
        rw [show jsParseInt "" = none from by decide] at hM
        cases hM
      · exact beq_eq_false_iff_ne.mpr h
    have hw : buildWhere [("minPrice", m), ("maxPrice", M)] =
        { city := none, type := none, property := none,
          bedroomGte := none, priceGte := some (some nm),
          priceLte := some (some nM) } := by
      simp [buildWhere, qget, tval, hm0, hM0, hm, hM]
    rw [hw]
    simp [postMatches]
  · -- unrecognized keys
    intro k v q hk
    simp only [List.mem_cons, List.not_mem_nil, or_false] at hk
    push_neg at hk
    obtain ⟨h1, h2, h3, h4, h5, h6⟩ := hk
    have hq : ∀ key : String, k ≠ key →
        qget ((k, v) :: q) key = qget q key := by
      intro key hne
      have : ((k, v).1 == key) = false := beq_eq_false_iff_ne.mpr hne
      simp [qget, List.find?_cons, this]
    unfold buildWhere
    rw [hq "city" h1, hq "type" h2, hq "property" h3, hq "bedroom" h4,
      hq "minPrice" h5, hq "maxPrice" h6]

/-- **C3 witness:** concrete evaluations — `bedroom=2` is an at-least
threshold satisfied by `pA` (2 bedrooms), and a `city` filter on the
empty mapping and on `pA` evaluates as stated. -/
theorem C3_filter_builder_witness :
    jsParseInt "2" = some 2 ∧
    postMatches (buildWhere [("bedroom", "2")]) pA =
      (match pA.bedroom with
       | none => false
       | some k => decide ((2 : Int) ≤ k)) ∧
    postMatches (buildWhere [("city", "ERL")]) pA = containsCI pA.city "ERL" :=
  ⟨by decide, C3_filter_builder.2.2.2.2.1 "2" 2 pA (by decide),
    C3_filter_builder.2.1 "ERL" pA⟩

/-- A create body following the spec's example (`title="Flat A"`,
`price=1200`, `city="Berlin"`) that additionally supplies coordinates. -/
def bodyC : AddBody :=
  { title := some "Flat A", price := some (.int 1200), images := none
    address := none, city := some "Berlin", bedroom := none
    bathroom := none, latitude := some (.str "52.5")
    longitude := some (.str "13.4"), type := none, property := none
    postDetail := none }

/-- The record `bodyC` creates under id `pN` at tick 20. -/
def pNew : Post :=
  { id := "pN", title := "Flat A", price := 1200, images := []
    address := "", city := "Berlin", bedroom := some 0, bathroom := some 0
    latitude := none, longitude := none, type := "rent"
    property := "apartment", createdAt := 20, updatedAt := 20
    userId := "u1" }

theorem addPost_posts_sub (st : DBState) (tok : String) (body : AddBody)
    (pid1 did1 pid2 did2 : String) (now : Nat) :
    ∀ p ∈ (addPost st tok body pid1 did1 pid2 did2 now).st.posts,
      p ∈ st.posts ∨ p = (createRecord body tok pid1 did1 now).1 ∨
        p = (createRecord body tok pid2 did2 now).1 := by
  intro p hp
  unfold addPost at hp
  split at hp
  · exact Or.inl hp
  · split at hp
    · exact Or.inl hp
    · split at hp
      · split at hp
        · exact Or.inl hp
        · split at hp
          · simp [insertCreated] at hp
            rcases hp with h | h
            · exact Or.inl h
            · exact Or.inr (Or.inr h)
          · simp [insertCreated] at hp
            rcases hp with h | h
            · exact Or.inl h
            · exact Or.inr (Or.inr h)
      · split at hp
        · simp [insertCreated] at hp
          rcases hp with h | h
          · exact Or.inl h
          · exact Or.inr (Or.inl h)
        · split at hp
          · simp [insertCreated] at hp
            rcases hp with h | h
            · exact Or.inl h
            · exact Or.inr (Or.inl h)
          · simp [insertCreated] at hp
            rcases hp with h | h | h
            · exact Or.inl h
            · exact Or.inr (Or.inl h)
            · exact Or.inr (Or.inr h)

/-- **C5.** The create operation never persists coordinates: every post in
the store after any create request either predates the request or has
`latitude = longitude = none` (even when the body supplies coordinates);
when the first create call faults, exactly one retry is issued (two
`create` calls total), and when the retry faults too the request
surfaces 500 with the store unchanged. -/
theorem C5_create_never_persists_coordinates :
    ∀ (st : DBState) (tok : String) (body : AddBody)
      (pid1 did1 pid2 did2 : String) (now : Nat),
      (∀ p ∈ (addPost st tok body pid1 did1 pid2 did2 now).st.posts,
        p ∈ st.posts ∨ (p.latitude = none ∧ p.longitude = none)) ∧
      (truthyS body.title = true → truthyN body.price = true →
        truthyS body.city = true → st.faultFull = true →
        (addPost st tok body pid1 did1 pid2 did2 now).attempts = 2) ∧
      (truthyS body.title = true → truthyN body.price = true →
        truthyS body.city = true → st.faultFull = true →
        st.faultFallback = true →
        addPost st tok body pid1 did1 pid2 did2 now = ⟨500, st, 2, none⟩) := by
  intro st tok body pid1 did1 pid2 did2 now
  refine ⟨?_, ?_, ?_⟩
  · intro p hp
    rcases addPost_posts_sub st tok body pid1 did1 pid2 did2 now p hp with
      h | h | h
    · exact Or.inl h
    · subst h; exact Or.inr ⟨rfl, rfl⟩
    · subst h; exact Or.inr ⟨rfl, rfl⟩
  · intro ht hpr hc hf
    unfold addPost
    rw [if_neg (by simp [ht, hpr, hc])]
    by_cases hth : createThrows body = true
    · rw [if_pos hth]
    · rw [if_neg hth, if_pos hf]
      by_cases hfb : st.faultFallback = true
      · rw [if_pos hfb]
      · rw [if_neg hfb]
        cases hj : joinUser st (createRecord body tok pid2 did2 now).1 <;>
          simp [hj]
  · intro ht hpr hc hf hfb
    unfold addPost
    rw [if_neg (by simp [ht, hpr, hc])]
    by_cases hth : createThrows body = true
    · rw [if_pos hth]
    · rw [if_neg hth, if_pos hf, if_pos hfb]

/-- **C5 witness:** creating with `bodyC` (coordinates supplied) stores
`pNew`, which carries no coordinates; against the unreachable store the
same request yields 500 after exactly two create calls, leaving the
store unchanged. -/
theorem C5_create_never_persists_coordinates_witness :
    pNew ∈ (addPost stA "u1" bodyC "pN" "dN" "pN2" "dN2" 20).st.posts ∧
    (pNew ∈ stA.posts ∨ (pNew.latitude = none ∧ pNew.longitude = none)) ∧
    addPost stDown "u1" bodyC "pN" "dN" "pN2" "dN2" 20 =
      ⟨500, stDown, 2, none⟩ :=
  ⟨by decide,
   (C5_create_never_persists_coordinates stA "u1" bodyC "pN" "dN" "pN2"
      "dN2" 20).1 pNew (by decide),
   (C5_create_never_persists_coordinates stDown "u1" bodyC "pN" "dN" "pN2"
      "dN2" 20).2.2 (by decide) (by decide) (by decide) rfl rfl⟩

/-- **C6 counterexample:** `body0` has `title`, `price` and `city` all
present and the backend `stA` is healthy, yet the request is rejected
with 400 and nothing is created — the claim's "present → 201" direction
fails for the present-but-falsy price `0`. -/
theorem C6_present_price_zero_counterexample :
    body0.title = some "T" ∧ body0.price = some (JNum.int 0) ∧
    body0.city = some "C" ∧ stA.faultFull = false ∧
    stA.faultFallback = false ∧
    (addPost stA "u1" body0 "x1" "y1" "x2" "y2" 0).status = 400 ∧
    (addPost stA "u1" body0 "x1" "y1" "x2" "y2" 0).st = stA := by
  decide

/-- **C6 (amended).** If `title`, `price` or `city` is missing **or
JavaScript-falsy** (`""` title/city, `0`/`""` price) the create returns
400 and no storage call is made; if all three are truthy and the create
call succeeds (no `NaN`, no backend fault, owner joined) it returns 201
with the shaped Listing. -/
theorem C6_create_validation :
    ∀ (st : DBState) (tok : String) (body : AddBody)
      (pid1 did1 pid2 did2 : String) (now : Nat),
      ((truthyS body.title && truthyN body.price && truthyS body.city) =
          false →
        addPost st tok body pid1 did1 pid2 did2 now = ⟨400, st, 0, none⟩) ∧
      (truthyS body.title = true → truthyN body.price = true →
        truthyS body.city = true → createThrows body = false →
        st.faultFull = false →
        ∀ u : User,
          joinUser st (createRecord body tok pid1 did1 now).1 = some u →
          addPost st tok body pid1 did1 pid2 did2 now =
            ⟨201,
             insertCreated st (createRecord body tok pid1 did1 now).1
               (createRecord body tok pid1 did1 now).2,
             1,
             some ⟨(createRecord body tok pid1 did1 now).1,
                   ownerInfoOf u
                     (createRecord body tok pid1 did1 now).1.city⟩⟩) := by
  intro st tok body pid1 did1 pid2 did2 now
  constructor
  · intro hg
    simp [addPost, hg]
  · intro ht hp hc hth hf u hu
    unfold addPost
    rw [if_neg (by simp [ht, hp, hc]), if_neg (by simp [hth]),
      if_neg (by simp [hf]), hu]

/-- **C6 witness:** the concrete healthy-store create with `bodyC`
returns 201 with the shaped listing and one create call. -/
theorem C6_create_validation_witness :
    addPost stA "u1" bodyC "pN" "dN" "pN2" "dN2" 20 =
      ⟨201,
       insertCreated stA (createRecord bodyC "u1" "pN" "dN" 20).1
         (createRecord bodyC "u1" "pN" "dN" 20).2,
       1,
       some ⟨(createRecord bodyC "u1" "pN" "dN" 20).1,
             ownerInfoOf u1 (createRecord bodyC "u1" "pN" "dN" 20).1.city⟩⟩ :=
  (C6_create_validation stA "u1" bodyC "pN" "dN" "pN2" "dN2" 20).2
    (by decide) (by decide) (by decide) (by decide) rfl u1 (by decide)

/-- A detail body with every field absent. -/
def dEmpty : DetailBody :=
  { desc := none, utilities := none, pet := none, income := none
    size := none, school := none, bus := none, restaurant := none }

/-- An update body that only carries an (empty) `postDetail` object. -/
def bU : UpdateBody :=
  { title := none, price := none, images := none, address := none
    city := none, bedroom := none, bathroom := none, latitude := none
    longitude := none, type := none, property := none
    postDetail := some dEmpty }

/-- An update body with a parsable string price. -/
def bPrice : UpdateBody :=
  { title := none, price := some (.str "1500"), images := none
    address := none, city := none, bedroom := none, bathroom := none
    latitude := none, longitude := none, type := none, property := none
    postDetail := none }

/-- `pA` after `bPrice` at tick 9. -/
def pA1500 : Post := { pA with price := 1500, updatedAt := 9 }

/-- An update body whose price is truthy but unparsable, with an empty
`postDetail` object. -/
def bBad : UpdateBody :=
  { title := none, price := some (.str "abc"), images := none
    address := none, city := none, bedroom := none, bathroom := none
    latitude := none, longitude := none, type := none, property := none
    postDetail := some dEmpty }

/-- `dA` after the empty detail upsert: numeric fields cleared to null. -/
def dA0 : PostDetail := { dA with size := none }

/-- `stA` after the empty detail upsert on `p1`. -/
def stA1 : DBState := { stA with details := [dA0] }

theorem updNumField_unchanged (v : Option JNum) (old r : Int)
    (h : updNumField v old = some r)
    (hv : v = none ∨ ∃ jn, v = some jn ∧ jn.truthy = false) : r = old := by
  rcases hv with rfl | ⟨jn, rfl, hf⟩
  · simp [updNumField] at h
    exact h.symm
  · simp [updNumField, hf] at h
    exact h.symm

theorem updNumField_parsed (v : Option JNum) (jn : JNum) (n : Int)
    (old r : Int) (h : updNumField v old = some r) (hjn : v = some jn)
    (ht : jn.truthy = true) (hp : jnumParseInt jn = some n) : r = n := by
  subst hjn
  simp [updNumField, ht, hp] at h
  exact h.symm

theorem updOptNumField_unchanged (v : Option JNum) (old r : Option Int)
    (h : updOptNumField v old = some r)
    (hv : v = none ∨ ∃ jn, v = some jn ∧ jn.truthy = false) : r = old := by
  rcases hv with rfl | ⟨jn, rfl, hf⟩
  · simp [updOptNumField] at h
    exact h.symm
  · simp [updOptNumField, hf] at h
    exact h.symm

theorem updOptNumField_parsed (v : Option JNum) (jn : JNum) (n : Int)
    (old : Option Int) (r : Option Int) (h : updOptNumField v old = some r)
    (hjn : v = some jn) (ht : jn.truthy = true)
    (hp : jnumParseInt jn = some n) : r = some n := by
  subst hjn
  simp [updOptNumField, ht, hp] at h
  exact h.symm

theorem detCreateNum_cleared (v : Option JNum) (r : Option Int)
    (h : detCreateNum v = some r)
    (hv : v = none ∨ ∃ jn, v = some jn ∧ jn.truthy = false) : r = none := by
  rcases hv with rfl | ⟨jn, rfl, hf⟩
  · simp [detCreateNum] at h
    exact h.symm
  · simp [detCreateNum, hf] at h
    exact h.symm

theorem detCreateNum_parsed (v : Option JNum) (jn : JNum) (n : Int)
    (r : Option Int) (h : detCreateNum v = some r) (hjn : v = some jn)
    (ht : jn.truthy = true) (hp : jnumParseInt jn = some n) :
    r = some n := by
  subst hjn
  simp [detCreateNum, ht, hp] at h
  exact h.symm

theorem find?_replace (l : List PostDetail) (pid : String) (upd : PostDetail)
    (hu : (upd.postId == pid) = true) :
    ∀ old, l.find? (fun x => x.postId == pid) = some old →
      (l.map fun x => if x.postId == pid then upd else x).find?
        (fun x => x.postId == pid) = some upd := by
  induction l with
  | nil => intro old h; cases h
  | cons a t ih =>
    intro old h
    by_cases ha : (a.postId == pid) = true
    · simp only [List.map_cons, ha, if_true]
      exact List.find?_cons_of_pos _ hu
    · have hfa : (a.postId == pid) = false := eq_false_of_ne_true ha
      rw [List.find?_cons_of_neg _ (by simp [hfa])] at h
      simp only [List.map_cons, hfa, if_false]
      rw [List.find?_cons_of_neg _ (by simp [hfa])]
      exact ih old h

/-- **C1 counterexample:** with the store `stC` (full query faulting,
fallback healthy) and the filter `city=berlin`, the code answers 200 but
the returned sequence contains a listing that does NOT satisfy the built
filter (`pB`, city `Paris`) — so the fallback does not re-apply the
built filter, contrary to the claim. -/
theorem C1_fallback_drops_filter_counterexample :
    (getPosts stC 0 [("city", "berlin")]).1 = 200 ∧
    ∃ sp ∈ (getPosts stC 0 [("city", "berlin")]).2,
      postMatches (buildWhere [("city", "berlin")]) sp.post = false := by
  decide

/-- **C1 (amended).** Every list request answers 200.  On a fault of the
full query the adapter falls back to a basic query that drops BOTH the
owner join and the built filter — it returns all stored Listings,
sentinel-shaped, newest-first — and if that fallback also faults the
request returns 200 with an empty sequence; in particular a request
against an unreachable backend returns `200 []`, never 500. -/
theorem C1_list_fallback :
    ∀ (st : DBState) (now : Nat) (q : List (String × String)),
      (getPosts st now q).1 = 200 ∧
      (st.faultFull = true → st.faultFallback = false →
        (getPosts st now q).2 = (sortDesc st.posts).map (shapeBasic now)) ∧
      (st.faultFull = true → st.faultFallback = true →
        getPosts st now q = (200, [])) := by
  intro st now q
  refine ⟨?_, fun hf hb => ?_, fun hf hb => ?_⟩
  · simp only [getPosts]
    split
    · split <;> rfl
    · rfl
  · simp [getPosts, hf, hb]
  · simp [getPosts, hf, hb]

/-- **C1 witness:** on the concrete faulting stores, the fallback returns
all listings sentinel-shaped, and the fully unreachable store yields
`200 []`. -/
theorem C1_list_fallback_witness :
    (getPosts stC 0 [("city", "berlin")]).2 =
      (sortDesc stC.posts).map (shapeBasic 0) ∧
    getPosts stDown 0 [("city", "berlin")] = (200, []) :=
  ⟨(C1_list_fallback stC 0 [("city", "berlin")]).2.1 rfl rfl,
    (C1_list_fallback stDown 0 [("city", "berlin")]).2.2 rfl rfl⟩

/-- **C9.** Both list paths null out `latitude`/`longitude` on every
returned listing, while the update operation writes client-supplied
coordinate strings to the record verbatim. -/
theorem C9_coordinates_nulled_on_list :
    (∀ (st : DBState) (now : Nat) (q : List (String × String)),
      ∀ sp ∈ (getPosts st now q).2,
        sp.post.latitude = none ∧ sp.post.longitude = none) ∧
    (∀ (p p2 : Post) (b : UpdateBody) (now : Nat),
      applyPostUpdate p b now = some p2 →
      (∀ s, b.latitude = some s → p2.latitude = some s) ∧
      (∀ s, b.longitude = some s → p2.longitude = some s)) := by
  constructor
  · intro st now q sp hsp
    unfold getPosts at hsp
    by_cases h1 : (st.faultFull || !whereValid (buildWhere q)) = true
    · rw [if_pos h1] at hsp
      by_cases h2 : st.faultFallback = true
      · rw [if_pos h2] at hsp
        simp at hsp
      · rw [if_neg h2] at hsp
        simp only [List.mem_map] at hsp
        obtain ⟨p, _, rfl⟩ := hsp
        exact ⟨rfl, rfl⟩
    · rw [if_neg h1] at hsp
      simp only [List.mem_map] at hsp
      obtain ⟨p, _, rfl⟩ := hsp
      exact ⟨rfl, rfl⟩
  · intro p p2 b now h
    unfold applyPostUpdate at h
    split at h
    · injection h with h2
      subst h2
      constructor <;> intro s hs <;> simp [updOptS, hs]
    · cases h

/-- A verbatim coordinate update body. -/
def bLat : UpdateBody :=
  { title := none, price := none, images := none, address := none
    city := none, bedroom := none, bathroom := none
    latitude := some "52.5200", longitude := some "13.4050"
    type := none, property := none, postDetail := none }

/-- The record `pA` after the coordinate update at tick 9. -/
def pALat : Post :=
  { pA with latitude := some "52.5200", longitude := some "13.4050"
            updatedAt := 9 }

/-- **C9 witness:** a concrete shaped listing of the healthy list path
has null coordinates, and the concrete update `bLat` stores the supplied
strings verbatim. -/
theorem C9_coordinates_nulled_witness :
    (shapeFull stA 0 pA ∈ (getPosts stA 0 []).2 ∧
      (shapeFull stA 0 pA).post.latitude = none ∧
      (shapeFull stA 0 pA).post.longitude = none) ∧
    (applyPostUpdate pA bLat 9 = some pALat ∧
      pALat.latitude = some "52.5200" ∧ pALat.longitude = some "13.4050") :=
  ⟨⟨by decide,
    (C9_coordinates_nulled_on_list.1 stA 0 [] (shapeFull stA 0 pA) (by decide)).1,
    (C9_coordinates_nulled_on_list.1 stA 0 [] (shapeFull stA 0 pA) (by decide)).2⟩,
   by decide,
   (C9_coordinates_nulled_on_list.2 pA pALat bLat 9 (by decide)).1 "52.5200" rfl,
   (C9_coordinates_nulled_on_list.2 pA pALat bLat 9 (by decide)).2 "13.4050" rfl⟩

/-- **C10.** The create operation's required-field check uses JavaScript
truthiness: a request whose price is the number `0`, or whose title or
city is the empty string, is rejected with 400 and no storage call is
made, even though the field is present. -/
theorem C10_truthiness_validation :
    ∀ (st : DBState) (tok : String) (body : AddBody)
      (pid1 did1 pid2 did2 : String) (now : Nat),
      (body.price = some (JNum.int 0) ∨ body.title = some "" ∨
        body.city = some "") →
      addPost st tok body pid1 did1 pid2 did2 now = ⟨400, st, 0, none⟩ := by
  intro st tok body pid1 did1 pid2 did2 now h
  have hguard : (truthyS body.title && truthyN body.price &&
      truthyS body.city) = false := by
    rcases h with h | h | h <;> simp [h, truthyS, truthyN, JNum.truthy]
  simp [addPost, hguard]

/-- **C10 witness:** the concrete body with `title="T"`, `price=0`,
`city="C"` is rejected with 400 and the store is unchanged. -/
theorem C10_truthiness_validation_witness :
    body0.price = some (JNum.int 0) ∧
    addPost stA "u1" body0 "x1" "y1" "x2" "y2" 0 = ⟨400, stA, 0, none⟩ :=
  ⟨rfl, C10_truthiness_validation stA "u1" body0 "x1" "y1" "x2" "y2" 0
    (Or.inl rfl)⟩

/-- **C8.** Every successful read/list result carries a present owner-info
projection: on the list paths it is either the joined-account projection
(identifier, handle, email, display name falling back to the handle,
avatar, `verified = false`, `showContactInfo = true`, member-since
timestamp, location built from the city) or an "unknown user" sentinel —
never omitted; on the read-one path a 200 response always carries the
joined projection. -/
theorem C8_owner_info_always_present :
    (∀ (st : DBState) (now : Nat) (q : List (String × String)),
      ∀ sp ∈ (getPosts st now q).2,
        (∃ u, joinUser st sp.post = some u ∧
          sp.ownerInfo = ownerInfoOf u sp.post.city) ∨
        sp.ownerInfo = unknownOwner sp.post.city now ∨
        sp.ownerInfo = unknownOwnerBasic sp.post.city now) ∧
    (∀ (st : DBState) (id : String) (sp : ShapedPost),
      (getPost st id).2 = some sp →
      ∃ u, joinUser st sp.post = some u ∧
        sp.ownerInfo = ownerInfoOf u sp.post.city) ∧
    (∀ (u : User) (c : String),
      (ownerInfoOf u c).id = u.id ∧
      (ownerInfoOf u c).username = u.username ∧
      (ownerInfoOf u c).email = u.email ∧
      (ownerInfoOf u c).fullName = u.username ∧
      (ownerInfoOf u c).avatar = u.avatar ∧
      (ownerInfoOf u c).verified = false ∧
      (ownerInfoOf u c).showContactInfo = true ∧
      (ownerInfoOf u c).memberSince = u.createdAt ∧
      (ownerInfoOf u c).location = locationOf c) ∧
    (∀ (c : String) (now : Nat),
      (unknownOwner c now).id = "unknown" ∧
      (unknownOwner c now).username = "Unknown User" ∧
      (unknownOwnerBasic c now).username = "Unknown User") := by
  refine ⟨?_, ?_, fun u c => ⟨rfl, rfl, rfl, rfl, rfl, rfl, rfl, rfl, rfl⟩,
    fun c now => ⟨rfl, rfl, rfl⟩⟩
  · intro st now q sp hsp
    unfold getPosts at hsp
    by_cases h1 : (st.faultFull || !whereValid (buildWhere q)) = true
    · rw [if_pos h1] at hsp
      by_cases h2 : st.faultFallback = true
      · rw [if_pos h2] at hsp
        simp at hsp
      · rw [if_neg h2] at hsp
        simp only [List.mem_map] at hsp
        obtain ⟨p, _, rfl⟩ := hsp
        exact Or.inr (Or.inr rfl)
    · rw [if_neg h1] at hsp
      simp only [List.mem_map] at hsp
      obtain ⟨p, _, rfl⟩ := hsp
      cases hj : joinUser st p with
      | some u => exact Or.inl ⟨u, hj, by simp [shapeFull, hj]⟩
      | none => exact Or.inr (Or.inl (by simp [shapeFull, hj]))
  · intro st id sp h
    unfold getPost at h
    split at h
    · simp at h
    · split at h
      · simp at h
      case _ p hfind u hj =>
        injection h with h2
        subst h2
        exact ⟨u, hj, rfl⟩

/-- The shaped read-one response for `p1` on the concrete store. -/
def spA : ShapedPost := { post := pA, ownerInfo := ownerInfoOf u1 pA.city }

/-- **C8 witness:** the concrete `GET /posts/p1` returns `spA`, whose
owner info is the joined projection of `u1`. -/
theorem C8_owner_info_always_present_witness :
    (getPost stA "p1").2 = some spA ∧
    ∃ u, joinUser stA spA.post = some u ∧
      spA.ownerInfo = ownerInfoOf u spA.post.city :=
  ⟨by decide, C8_owner_info_always_present.2.1 stA "p1" spA (by decide)⟩

/-- **C4 counterexample:** updating `p1` (stored detail size 5) with a
`postDetail` object that omits `size` succeeds with 200, yet the stored
size becomes null — the supplied value was absent but the stored field
was NOT left unchanged. -/
theorem C4_absent_detail_field_cleared_counterexample :
    ((stA.details.find? fun x => x.postId == "p1").map PostDetail.size =
      some (some 5)) ∧
    (updatePost stA "p1" "u1" bU "dX" 9).1 = 200 ∧
    (((updatePost stA "p1" "u1" bU "dX" 9).2.details.find?
        fun x => x.postId == "p1").map PostDetail.size = some none) := by
  decide

/-- **C4 (amended).** On update, the Listing's numeric fields (price,
bedroom, bathroom) are left unchanged when the supplied value is absent
or falsy and set to the parsed integer when it is truthy and parses; the
Detail's numeric fields (size, school, bus, restaurant) are always
rewritten by the upsert — to the parsed integer when truthy and parsing,
and to null when absent or falsy; and the Detail upsert is an
independent storage call that persists even when the subsequent Listing
update faults. -/
theorem C4_update_semantics :
    (∀ (p p2 : Post) (b : UpdateBody) (now : Nat),
      applyPostUpdate p b now = some p2 →
      ((b.price = none ∨ ∃ jn, b.price = some jn ∧ jn.truthy = false) →
        p2.price = p.price) ∧
      (∀ jn n, b.price = some jn → jn.truthy = true →
        jnumParseInt jn = some n → p2.price = n) ∧
      ((b.bedroom = none ∨ ∃ jn, b.bedroom = some jn ∧ jn.truthy = false) →
        p2.bedroom = p.bedroom) ∧
      (∀ jn n, b.bedroom = some jn → jn.truthy = true →
        jnumParseInt jn = some n → p2.bedroom = some n) ∧
      ((b.bathroom = none ∨ ∃ jn, b.bathroom = some jn ∧ jn.truthy = false) →
        p2.bathroom = p.bathroom) ∧
      (∀ jn n, b.bathroom = some jn → jn.truthy = true →
        jnumParseInt jn = some n → p2.bathroom = some n)) ∧
    (∀ (st st1 : DBState) (pid did : String) (d : DetailBody)
        (old : PostDetail),
      upsertDetail st pid did d = some st1 →
      st.details.find? (fun x => x.postId == pid) = some old →
      ∃ nd, st1.details.find? (fun x => x.postId == pid) = some nd ∧
        ((d.size = none ∨ ∃ jn, d.size = some jn ∧ jn.truthy = false) →
          nd.size = none) ∧
        (∀ jn n, d.size = some jn → jn.truthy = true →
          jnumParseInt jn = some n → nd.size = some n) ∧
        ((d.school = none ∨ ∃ jn, d.school = some jn ∧ jn.truthy = false) →
          nd.school = none) ∧
        (∀ jn n, d.school = some jn → jn.truthy = true →
          jnumParseInt jn = some n → nd.school = some n) ∧
        ((d.bus = none ∨ ∃ jn, d.bus = some jn ∧ jn.truthy = false) →
          nd.bus = none) ∧
        (∀ jn n, d.bus = some jn → jn.truthy = true →
          jnumParseInt jn = some n → nd.bus = some n) ∧
        ((d.restaurant = none ∨
            ∃ jn, d.restaurant = some jn ∧ jn.truthy = false) →
          nd.restaurant = none) ∧
        (∀ jn n, d.restaurant = some jn → jn.truthy = true →
          jnumParseInt jn = some n → nd.restaurant = some n)) ∧
    (∀ (st st1 : DBState) (id tok did : String) (b : UpdateBody)
        (d : DetailBody) (p : Post) (now : Nat),
      st.posts.find? (fun x => x.id == id) = some p → p.userId = tok →
      b.postDetail = some d → upsertDetail st id did d = some st1 →
      applyPostUpdate p b now = none →
      updatePost st id tok b did now = (500, st1)) := by
  refine ⟨?_, ?_, ?_⟩
  · intro p p2 b now h
    unfold applyPostUpdate at h
    split at h
    case _ pr bd ba hpr hbd hba =>
      injection h with h2
      subst h2
      refine ⟨fun hv => updNumField_unchanged _ _ _ hpr hv,
        fun jn n hjn ht hp => updNumField_parsed _ jn n _ _ hpr hjn ht hp,
        fun hv => updOptNumField_unchanged _ _ _ hbd hv,
        fun jn n hjn ht hp => updOptNumField_parsed _ jn n _ _ hbd hjn ht hp,
        fun hv => updOptNumField_unchanged _ _ _ hba hv,
        fun jn n hjn ht hp => updOptNumField_parsed _ jn n _ _ hba hjn ht hp⟩
    case _ => cases h
  · intro st st1 pid did d old h hfind
    unfold upsertDetail at h
    split at h
    case _ sz sc bu re hsz hsc hbu hre =>
      rw [hfind] at h
      injection h with h2
      subst h2
      refine ⟨_, find?_replace st.details pid _
        (by simpa using List.find?_some hfind) old hfind,
        ?_, ?_, ?_, ?_, ?_, ?_, ?_, ?_⟩
      · exact fun hv => detCreateNum_cleared _ _ hsz hv
      · exact fun jn n hjn ht hp => detCreateNum_parsed _ jn n _ hsz hjn ht hp
      · exact fun hv => detCreateNum_cleared _ _ hsc hv
      · exact fun jn n hjn ht hp => detCreateNum_parsed _ jn n _ hsc hjn ht hp
      · exact fun hv => detCreateNum_cleared _ _ hbu hv
      · exact fun jn n hjn ht hp => detCreateNum_parsed _ jn n _ hbu hjn ht hp
      · exact fun hv => detCreateNum_cleared _ _ hre hv
      · exact fun jn n hjn ht hp => detCreateNum_parsed _ jn n _ hre hjn ht hp
    case _ => cases h
  · intro st st1 id tok did b d p now hfind howner hpd hups happ
    have hbne : (p.userId != tok) = false := by simp [howner]
    unfold updatePost
    rw [hfind]
    simp only [hbne, Bool.false_eq_true, if_false]
    simp only [hpd, hups, happ]

/-- **C4 witness:** the concrete string price `"1500"` is parsed and
stored on `pA`, and the concrete failing update `bBad` (unparsable
price, empty detail object) leaves the store at `stA1` — the completed
detail upsert — with status 500. -/
theorem C4_update_semantics_witness :
    (applyPostUpdate pA bPrice 9 = some pA1500 ∧ pA1500.price = 1500) ∧
    updatePost stA "p1" "u1" bBad "dX" 9 = (500, stA1) :=
  ⟨⟨by decide,
    (C4_update_semantics.1 pA pA1500 bPrice 9 (by decide)).2.1
      (JNum.str "1500") 1500 rfl (by decide) (by decide)⟩,
   C4_update_semantics.2.2 stA stA1 "p1" "u1" "dX" bBad dEmpty pA 9
     (by decide) (by decide) rfl (by decide) (by decide)⟩

end PropertyState
